import Mathlib

/-!
Verification of the polling-and-notification worker of the jugaad-backend
repository (src/worker.py together with src/models/models.py,
src/base_models/base_models.py and src/mailer.py).

Prices are SQLAlchemy Float columns; the concrete values handled by the worker
are small decimal amounts, which we embed as exact rationals.  Fallible steps
(an HTTP or JSON-parse exception, a ZeroDivisionError, an SMTP exception) are
embedded as explicit outcome constructors, since the source contains no
try/except around them.
-/

namespace Jugaad

/-- Python `int(x)` applied to an exact rational value: truncation toward 0,
computed as the truncating division of numerator by denominator. -/
def pyInt (q : ℚ) : ℤ := Int.tdiv q.num (q.den : ℤ)

/-- Python built-in one-argument `round` applied to an exact rational value:
round half to even.  The floor is the flooring division of numerator by
denominator (the denominator of a reduced rational is positive). -/
def pythonRound (q : ℚ) : ℤ :=
  let f : ℤ := Int.fdiv q.num (q.den : ℤ)
  let r : ℚ := q - (f : ℚ)
  if r < 1 / 2 then f
  else if 1 / 2 < r then f + 1
  else if f % 2 = 0 then f else f + 1

/-- Row of `user_selected_items` (models.UserSelectedItems).  The integer
notification budget `email_sent_count` is read and written by the worker
(worker.py lines 166, 170, 176, 179) but its column declaration is absent from
models.py.  Modelled from the spec: `notifications_remaining` is an integer
budget, decremented on each notify, never negative, hence a natural number. -/
structure Selection where
  id : String
  user_uid : String
  item_id : String
  pincode : String
  min_price : Option ℚ := none
  max_price : ℚ
  min_offer : Option ℚ := none
  max_offer : ℚ
  email_sent_count : ℕ
deriving DecidableEq

/-- Row of `users` (models.DBUser), with its eagerly loaded selections. -/
structure DBUser where
  uid : String
  username : Option String := none
  email : String
  pincode : String
  selected_items : List Selection
deriving DecidableEq

/-- Row of `items` (models.Items), keyed by (item_id, pincode).  The nullable
columns are embedded as total fields: the worker always writes all of them. -/
structure Items where
  item_id : String
  source_url : String
  pincode : String
  name : String
  mrp_price : ℚ
  selling_price : ℚ
  discount_percent : ℚ
  discount_price : ℚ
  max_order_quantity : ℤ
  is_available : Bool
  image_url : String
  brand : String
  category : String
deriving DecidableEq

/-- Row of `items_price_logger` (models.ItemsPriceLogger): an immutable price
history record.  `last_updated_timestamp` is an abstract clock value. -/
structure ItemsPriceLogger where
  item_id : String
  source_url : String
  pincode : String
  name : String
  mrp_price : ℚ
  selling_price : ℚ
  discount_percent : ℚ
  discount_price : ℚ
  max_order_quantity : ℤ
  is_available : Bool
  brand : String
  category : String
  last_updated_timestamp : ℕ
deriving DecidableEq

/-- The dictionary returned by `fetch_price` (worker.py lines 121-136). -/
structure CurrentPrice where
  item_id : String
  pincode : String
  source_url : String
  image_url : String
  name : String
  mrp_price : ℚ
  selling_price : ℚ
  discount_percent : ℚ
  discount_price : ℚ
  max_order_quantity : ℤ
  is_available : Bool
  brand : String
  category : String
  last_updated_timestamp : ℕ
deriving DecidableEq

/-- The upstream payload consumed by `fetch_price`: the fields it reads from
`raw["data"]` and `data["gtm_details"]`, plus the wall-clock instant at which
`datetime.now(timezone.utc)` is taken. -/
structure FetchData where
  image_url : String
  name : String
  mrp_price : ℚ
  selling_price : ℚ
  discount_percent : ℚ
  discount_price : ℚ
  max_order_quantity : ℤ
  availability_status : String
  brand : String
  category : String
  timestamp : ℕ
deriving DecidableEq

/-- Result of one `fetch_price` call for one item.  `ok` is a successful parse;
`notFound` is the upstream `status == "failure"` branch, which returns None;
`exn` is an uncaught exception (an HTTP error from `raise_for_status` or a
KeyError while reading the JSON), which the worker never catches. -/
inductive FetchResult where
  | ok (d : FetchData)
  | notFound
  | exn
deriving DecidableEq

/-- The dictionary `fetch_price` builds on success (worker.py lines 121-136):
key fields come from the arguments, data fields from the upstream payload, and
the image URL is prefixed with the site host. -/
def mkCurrentPrice (item_id pincode source_url : String) (d : FetchData) :
    CurrentPrice :=
  { item_id := item_id
    pincode := pincode
    source_url := source_url
    image_url := "https://www.jiomart.com" ++ d.image_url
    name := d.name
    mrp_price := d.mrp_price
    selling_price := d.selling_price
    discount_percent := d.discount_percent
    discount_price := d.discount_price
    max_order_quantity := d.max_order_quantity
    is_available := d.availability_status == "A"
    brand := d.brand
    category := d.category
    last_updated_timestamp := d.timestamp }

/-- `get_latest_price` (worker.py lines 143-150): the row for (item_id,
pincode) with the greatest `last_updated_timestamp`, or none.  On equal
timestamps the row appended later wins (database order on ties is arbitrary;
the inputs we consider have distinct timestamps per key). -/
def get_latest_price (history : List ItemsPriceLogger) (item_id pincode : String) :
    Option ItemsPriceLogger :=
  history.foldl
    (fun acc r =>
      if r.item_id = item_id ∧ r.pincode = pincode then
        match acc with
        | none => some r
        | some a =>
          if a.last_updated_timestamp ≤ r.last_updated_timestamp then some r
          else some a
      else acc)
    none

/-- base_models.MailTemplate.  The source stringifies the numeric fields
(`str(int(selected_item.max_price))`, `str(current_price["selling_price"])`,
`str(change_percent)`); we keep the numbers themselves. -/
structure MailTemplate where
  emails_remaining : ℕ
  user_email : String
  item_name : String
  image_url : String
  source_url : String
  prev_price : ℤ
  curr_price : ℚ
  change_percent : ℤ
deriving DecidableEq

/-- Result of one `price_match` call (worker.py lines 157-190).
`nothing s` models `return None`, with `s` the in-memory selection state
(its budget may have been reset at line 166 even on this path);
`notify s m` models a successfully sent mail `m` and `return selected_item`;
`divByZero s` models the uncaught ZeroDivisionError raised by the
`change_percent` division when the previous selling price is 0;
`mailError s` models an uncaught SMTP exception raised by `send_mail_async`. -/
inductive PMOutcome where
  | nothing (s : Selection)
  | notify (s : Selection) (m : MailTemplate)
  | divByZero (s : Selection)
  | mailError (s : Selection)
deriving DecidableEq

/-- `price_match` (worker.py lines 157-190).  `c` models the module constant
EMAIL_SENT_COUNT, which worker.py imports from settings; its defining
assignment is not in the source tree, so the value is left as a parameter
(the spec describes it as the full notification budget).  `history` stands for
the committed `items_price_logger` rows visible to the query inside
`get_latest_price` (the session uses autoflush=False, so rows pending in the
same unit are not visible).  `mailOk` tells whether `send_mail_async`
succeeds. -/
def price_match (c : ℕ) (user : DBUser) (selected_item : Selection)
    (current_price : CurrentPrice) (history : List ItemsPriceLogger)
    (mailOk : Bool) : PMOutcome :=
  match get_latest_price history selected_item.item_id user.pincode with
  | none => .nothing selected_item
  | some prev_price_row =>
    let count0 : ℕ :=
      if current_price.selling_price < prev_price_row.selling_price ∧
          current_price.selling_price < selected_item.max_price then c
      else selected_item.email_sent_count
    let price_dropped := current_price.selling_price < selected_item.max_price
    let offer_improved := current_price.discount_percent > selected_item.max_offer
    if ¬(price_dropped ∨ offer_improved) ∨ count0 = 0 then
      .nothing { selected_item with email_sent_count := count0 }
    else if prev_price_row.selling_price = 0 then
      .divByZero { selected_item with email_sent_count := count0 }
    else
      let change_percent : ℤ :=
        pythonRound (((selected_item.max_price - current_price.selling_price) /
          prev_price_row.selling_price) * 100)
      let sel2 : Selection := { selected_item with email_sent_count := count0 - 1 }
      if mailOk then
        .notify sel2
          { emails_remaining := sel2.email_sent_count
            user_email := user.email
            item_name := current_price.name
            image_url := current_price.image_url
            source_url := current_price.source_url
            prev_price := pyInt selected_item.max_price
            curr_price := current_price.selling_price
            change_percent := change_percent }
      else .mailError sel2

/-- Whether a `price_match` outcome is a sent notification. -/
def isNotify : PMOutcome → Bool
  | .notify _ _ => true
  | _ => false

/-- Whether a `price_match` outcome is an uncaught mail-send exception. -/
def isMailError : PMOutcome → Bool
  | .mailError _ => true
  | _ => false

/-- The budget carried by a notify outcome, if any. -/
def notifyBudget : PMOutcome → Option ℕ
  | .notify s _ => some s.email_sent_count
  | _ => none

/-- The mail carried by a notify outcome, if any. -/
def notifyMail : PMOutcome → Option MailTemplate
  | .notify _ m => some m
  | _ => none

/-- Whether control reached the `send_mail_async` call: a sent mail or an
uncaught SMTP exception. -/
def reachedMailStep : PMOutcome → Bool
  | .notify _ _ => true
  | .mailError _ => true
  | _ => false

/-- The `items_price_logger` row appended for a snapshot: every field of the
`current_price` dictionary except `image_url`, which `process_user` pops
before `session.add(ItemsPriceLogger(**hist_payload))` (worker.py 216-219). -/
def histOf (cur : CurrentPrice) : ItemsPriceLogger :=
  { item_id := cur.item_id
    source_url := cur.source_url
    pincode := cur.pincode
    name := cur.name
    mrp_price := cur.mrp_price
    selling_price := cur.selling_price
    discount_percent := cur.discount_percent
    discount_price := cur.discount_price
    max_order_quantity := cur.max_order_quantity
    is_available := cur.is_available
    brand := cur.brand
    category := cur.category
    last_updated_timestamp := cur.last_updated_timestamp }

/-- The Items-row update loop (worker.py 211-214): every key of the
`current_price` dictionary that is an attribute of Items is written onto the
row (all of them except `last_updated_timestamp`, which Items lacks). -/
def updateItemFrom (item : Items) (cur : CurrentPrice) : Items :=
  { item with
    item_id := cur.item_id
    pincode := cur.pincode
    source_url := cur.source_url
    image_url := cur.image_url
    name := cur.name
    mrp_price := cur.mrp_price
    selling_price := cur.selling_price
    discount_percent := cur.discount_percent
    discount_price := cur.discount_price
    max_order_quantity := cur.max_order_quantity
    is_available := cur.is_available
    brand := cur.brand
    category := cur.category }

/-- Committed database state: the three tables the worker touches. -/
structure DBState where
  items : List Items
  history : List ItemsPriceLogger
  user_selected_items : List Selection
deriving DecidableEq

/-- Mutations buffered in the open session, written only on
`session.commit()` and discarded when an exception ends the `async with
Session()` block. -/
structure Pending where
  itemUpdates : List Items := []
  histAppends : List ItemsPriceLogger := []
  selUpdates : List Selection := []
deriving DecidableEq

/-- Writing an updated Items row: replaces the row with the same composite
key (item_id, pincode). -/
def upsertItem (items : List Items) (it : Items) : List Items :=
  items.map fun x => if x.item_id = it.item_id ∧ x.pincode = it.pincode then it else x

/-- Writing an updated selection row: replaces the row with the same id. -/
def upsertSel (sels : List Selection) (s : Selection) : List Selection :=
  sels.map fun x => if x.id = s.id then s else x

/-- `session.commit()`: flush all buffered mutations into the committed
state.  History rows are appended, never replaced. -/
def commit (db : DBState) (p : Pending) : DBState :=
  { items := p.itemUpdates.foldl upsertItem db.items
    history := db.history ++ p.histAppends
    user_selected_items := p.selUpdates.foldl upsertSel db.user_selected_items }

/-- The Items rows visible to `session.get` mid-unit: committed rows overlaid
with this session's own pending updates (the identity map returns the mutated
instance for an already loaded row). -/
def visibleItems (db : DBState) (p : Pending) : List Items :=
  p.itemUpdates.foldl upsertItem db.items

/-- Result of one user-unit: the committed database state when the unit ends
(normally or by an escaped exception), the mails actually sent during it, and
whether an exception escaped the unit (propagating to the gather in
`worker`). -/
structure ProcOutcome where
  db : DBState
  mails : List MailTemplate
  errored : Bool
deriving DecidableEq

/-- The per-selection loop of `process_user` (worker.py 197-221) with the
session semantics made explicit: a missing Items row skips the selection; a
not-found fetch marks the item unavailable and commits everything pending; a
successful fetch runs `price_match`, buffers the selection update (when one is
returned), the Items update and the history append; the final commit runs
after the loop.  An uncaught exception (fetch exception, ZeroDivisionError,
mail exception) ends the unit at once: pending mutations are rolled back by
the session context exit, mails already sent stand. -/
def process_user_go (c : ℕ) (user : DBUser) (fetch : String → FetchResult)
    (mailOk : Bool) :
    List Selection → DBState → Pending → List MailTemplate → ProcOutcome
  | [], db, p, mails => ⟨commit db p, mails, false⟩
  | sel :: rest, db, p, mails =>
    match (visibleItems db p).find?
        (fun x => x.item_id == sel.item_id && x.pincode == user.pincode) with
    | none => process_user_go c user fetch mailOk rest db p mails
    | some item =>
      match fetch sel.item_id with
      | .exn => ⟨db, mails, true⟩
      | .notFound =>
        let p1 : Pending :=
          { p with itemUpdates := p.itemUpdates ++ [{ item with is_available := false }] }
        process_user_go c user fetch mailOk rest (commit db p1) {} mails
      | .ok d =>
        let cur := mkCurrentPrice item.item_id user.pincode item.source_url d
        match price_match c user sel cur db.history mailOk with
        | .divByZero _ => ⟨db, mails, true⟩
        | .mailError _ => ⟨db, mails, true⟩
        | .nothing _ =>
          let p1 : Pending :=
            { p with
              itemUpdates := p.itemUpdates ++ [updateItemFrom item cur]
              histAppends := p.histAppends ++ [histOf cur] }
          process_user_go c user fetch mailOk rest db p1 mails
        | .notify s m =>
          let p1 : Pending :=
            { p with
              itemUpdates := p.itemUpdates ++ [updateItemFrom item cur]
              histAppends := p.histAppends ++ [histOf cur]
              selUpdates := p.selUpdates ++ [s] }
          process_user_go c user fetch mailOk rest db p1 (mails ++ [m])

/-- `process_user` (worker.py 193-221): open a fresh session and run the
per-selection loop over the selections loaded for the user.  `fetch` gives
the outcome of `fetch_price` per item id this cycle (the regional cookie is
fetched once up front and shared; we take it as already resolved). -/
def process_user (c : ℕ) (user : DBUser) (fetch : String → FetchResult)
    (mailOk : Bool) (db : DBState) : ProcOutcome :=
  process_user_go c user fetch mailOk user.selected_items db {} []

/-! Concrete fixtures used by the witness and counterexample theorems. -/

/-- A selection row with the given key, thresholds and budget. -/
def fixSel (id item_id : String) (maxP maxO : ℚ) (cnt : ℕ) : Selection :=
  { id := id, user_uid := "u1", item_id := item_id, pincode := "682020",
    max_price := maxP, max_offer := maxO, email_sent_count := cnt }

/-- A user in region 682020 with the given selections. -/
def fixUser (sels : List Selection) : DBUser :=
  { uid := "u1", email := "u1@example.com", pincode := "682020", selected_items := sels }

/-- A history row for the given item with the given selling price and clock. -/
def fixHist (item_id : String) (sp : ℚ) (ts : ℕ) : ItemsPriceLogger :=
  { item_id := item_id, source_url := "https://example/p", pincode := "682020",
    name := "prod", mrp_price := 100, selling_price := sp, discount_percent := 0,
    discount_price := 0, max_order_quantity := 5, is_available := true,
    brand := "b", category := "c", last_updated_timestamp := ts }

/-- An upstream payload with the given selling price, discount and clock. -/
def fixData (sp dp : ℚ) (ts : ℕ) : FetchData :=
  { image_url := "/img", name := "prod", mrp_price := 100, selling_price := sp,
    discount_percent := dp, discount_price := 0, max_order_quantity := 5,
    availability_status := "A", brand := "b", category := "c", timestamp := ts }

/-- An Items row for the given item id in region 682020. -/
def fixItem (item_id : String) : Items :=
  { item_id := item_id, source_url := "https://example/p", pincode := "682020",
    name := "prod", mrp_price := 100, selling_price := 100, discount_percent := 0,
    discount_price := 0, max_order_quantity := 5, is_available := true,
    image_url := "https://www.jiomart.com/img", brand := "b", category := "c" }

/-! Shared facts about the embedded operations. -/

lemma visibleItems_empty (db : DBState) : visibleItems db {} = db.items := rfl

lemma commit_empty (db : DBState) : commit db {} = db := by
  simp [commit]

/-- The first-run branch of price_match (worker.py 162-163): with no previous
history row the call returns None at once, without touching the selection. -/
lemma price_match_first_run (c : ℕ) (u : DBUser) (sel : Selection) (cur : CurrentPrice)
    (hist : List ItemsPriceLogger) (mailOk : Bool)
    (h : get_latest_price hist sel.item_id u.pincode = none) :
    price_match c u sel cur hist mailOk = PMOutcome.nothing sel := by
  unfold price_match
  rw [h]

/-- When the new price does not beat max_price and the new discount does not
beat max_offer, price_match returns None and the selection is untouched (the
budget reset needs the price below max_price too). -/
lemma price_match_no_trigger (c : ℕ) (u : DBUser) (sel : Selection) (cur : CurrentPrice)
    (hist : List ItemsPriceLogger) (mailOk : Bool)
    (hp : ¬ cur.selling_price < sel.max_price)
    (ho : ¬ cur.discount_percent > sel.max_offer) :
    price_match c u sel cur hist mailOk = PMOutcome.nothing sel := by
  unfold price_match
  cases hg : get_latest_price hist sel.item_id u.pincode with
  | none => rfl
  | some prev =>
    dsimp only
    have hreset : ¬(cur.selling_price < prev.selling_price ∧ cur.selling_price < sel.max_price) :=
      fun h => hp h.2
    rw [if_neg hreset]
    have hguard : ¬(cur.selling_price < sel.max_price ∨ cur.discount_percent > sel.max_offer) ∨
        sel.email_sent_count = 0 := Or.inl (not_or.mpr ⟨hp, ho⟩)
    rw [if_pos hguard]

/-- In a NOTIFY outcome the mail carries prev_price = int(selection.max_price)
and curr_price = the new selling price (worker.py 184-185). -/
lemma price_match_mail_fields (c : ℕ) (u : DBUser) (sel : Selection) (cur : CurrentPrice)
    (hist : List ItemsPriceLogger) (mailOk : Bool) (s : Selection) (m : MailTemplate)
    (h : price_match c u sel cur hist mailOk = PMOutcome.notify s m) :
    m.prev_price = pyInt sel.max_price ∧ m.curr_price = cur.selling_price := by
  unfold price_match at h
  cases hg : get_latest_price hist sel.item_id u.pincode with
  | none => rw [hg] at h; exact PMOutcome.noConfusion h
  | some prev =>
    rw [hg] at h
    dsimp only at h
    repeat' split at h
    all_goals first
      | exact PMOutcome.noConfusion h
      | { obtain ⟨h1, h2⟩ := PMOutcome.notify.inj h
          subst h2
          exact ⟨rfl, rfl⟩ }

/-- One user-unit step on a single-selection user whose item row exists and
whose fetch succeeds with a snapshot that beats neither threshold: the unit
commits the item update and one history append, sends nothing, updates no
selection and raises nothing. -/
lemma process_user_no_trigger_step (c : ℕ) (user : DBUser) (fetch : String → FetchResult)
    (mailOk : Bool) (db : DBState) (sel : Selection) (item : Items) (d : FetchData)
    (hsel : user.selected_items = [sel])
    (hitems : db.items = [item])
    (hid : item.item_id = sel.item_id) (hpin : item.pincode = user.pincode)
    (hfetch : fetch sel.item_id = FetchResult.ok d)
    (hp : ¬ d.selling_price < sel.max_price)
    (ho : ¬ d.discount_percent > sel.max_offer) :
    process_user c user fetch mailOk db =
      ProcOutcome.mk
        (DBState.mk
          [updateItemFrom item (mkCurrentPrice item.item_id user.pincode item.source_url d)]
          (db.history ++ [histOf (mkCurrentPrice item.item_id user.pincode item.source_url d)])
          db.user_selected_items)
        [] false := by
  have hfind : List.find? (fun x => x.item_id == sel.item_id && x.pincode == user.pincode) [item] = some item := by
    simp [List.find?, hid, hpin]
  have hpm := price_match_no_trigger c user sel
    (mkCurrentPrice item.item_id user.pincode item.source_url d) db.history mailOk hp ho
  simp only [process_user, hsel, process_user_go, visibleItems_empty, hitems, hfind, hfetch, hpm,
    commit, List.nil_append, List.foldl]
  simp [upsertItem, updateItemFrom, mkCurrentPrice, histOf, hid, hpin]

/-! Claim C1. -/

/-- C1 counterexample: a selection with budget 0 and max_price 95, previous
selling price 100, new selling price 90.  The new price is below both, so
worker.py line 166 resets the budget to EMAIL_SENT_COUNT (here 5) before the
budget test, and the decision step notifies — refuting the claim that a
budget of 0 always blocks NOTIFY. -/
theorem C1_counterexample :
    isNotify (price_match 5 (fixUser []) (fixSel "s1" "i1" 95 50 0)
      (mkCurrentPrice "i1" "682020" "https://example/p" (fixData 90 0 1))
      [fixHist "i1" 100 0] true) = true := by decide

/-- C1 (amended): a selection whose budget is 0 never yields NOTIFY unless the
new selling price is strictly below both the previous selling price and the
selection max_price — the budget-reset condition of worker.py line 164; in
every other configuration of prices the decision step returns NONE. -/
theorem C1_zero_budget (c : ℕ) (u : DBUser) (sel : Selection) (cur : CurrentPrice)
    (hist : List ItemsPriceLogger) (mailOk : Bool)
    (h0 : sel.email_sent_count = 0)
    (hnr : ∀ prev, get_latest_price hist sel.item_id u.pincode = some prev →
      ¬(cur.selling_price < prev.selling_price ∧ cur.selling_price < sel.max_price)) :
    isNotify (price_match c u sel cur hist mailOk) = false := by
  unfold price_match
  cases hg : get_latest_price hist sel.item_id u.pincode with
  | none => rfl
  | some prev =>
    have h := hnr prev hg
    simp only [h, if_false, ite_false, h0]
    simp [isNotify]

/-- C1 witness: budget 0, previous price 100, new price 96 above max_price 95:
no reset applies and no notification is produced. -/
theorem C1_witness :
    isNotify (price_match 7 (fixUser []) (fixSel "s1" "i1" 95 50 0)
      (mkCurrentPrice "i1" "682020" "https://example/p" (fixData 96 0 1))
      [fixHist "i1" 100 0] true) = false := by
  apply C1_zero_budget
  · rfl
  · intro prev h
    have h2 : some (fixHist "i1" 100 0) = some prev := h
    injection h2 with h3
    subst h3
    decide

/-! Claim C2. -/

/-- User tracking items iA and iB in region 682020. -/
def uC2 : DBUser := fixUser [fixSel "sA" "iA" 95 50 3, fixSel "sB" "iB" 95 50 3]

/-- Database with rows for both tracked items and no history. -/
def dbC2 : DBState := DBState.mk [fixItem "iA", fixItem "iB"] []
  [fixSel "sA" "iA" 95 50 3, fixSel "sB" "iB" 95 50 3]

/-- Cycle in which iA fetches fine and iB raises a network or parse error. -/
def fetchC2 : String → FetchResult :=
  fun i => if i == "iA" then FetchResult.ok (fixData 90 0 1) else FetchResult.exn

/-- Cycle in which the source reports iA as not found and iB fetches fine. -/
def fetchC2b : String → FetchResult :=
  fun i => if i == "iA" then FetchResult.notFound else FetchResult.ok (fixData 99 0 1)

/-- The snapshot built for iB in the second scenario. -/
def curC2b : CurrentPrice := mkCurrentPrice "iB" "682020" "https://example/p" (fixData 99 0 1)

/-- C2 counterexample: item iA of user u1 fetches successfully, then item iB
raises.  The exception escapes the unit (errored), and the database commits
nothing: iA has no new history row and no item update even though its fetch
succeeded, refuting the claim that a failure on one item is isolated and the
other mutations of the unit still commit. -/
theorem C2_counterexample :
    process_user 5 uC2 fetchC2 true dbC2 = ProcOutcome.mk dbC2 [] true := by decide

/-- C2 (amended): only the upstream not-found failure kind is isolated — the
item is marked unavailable, the session is committed and the loop continues,
so the sibling item still commits (first conjunct); a network or parse
exception instead aborts the whole user-unit, rolls back its pending
mutations and escapes to the gather of the cycle (second conjunct). -/
theorem C2_amended_thm :
    (process_user 5 uC2 fetchC2b true dbC2 =
      ProcOutcome.mk
        (DBState.mk [{ fixItem "iA" with is_available := false }, updateItemFrom (fixItem "iB") curC2b]
          [histOf curC2b]
          [fixSel "sA" "iA" 95 50 3, fixSel "sB" "iB" 95 50 3])
        [] false) ∧
    (process_user 5 uC2 fetchC2 true dbC2 = ProcOutcome.mk dbC2 [] true) := by decide

/-! Claim C3. -/

/-- C3 counterexample: previous selling price 0, new price 50 below max_price
100, budget 3.  The decision step reaches the change_percent division and
raises ZeroDivisionError instead of treating the case as NONE — there is no
division-by-zero guard in price_match. -/
theorem C3_counterexample :
    price_match 5 (fixUser []) (fixSel "s1" "i1" 100 50 3)
      (mkCurrentPrice "i1" "682020" "https://example/p" (fixData 50 0 1))
      [fixHist "i1" 0 0] true = PMOutcome.divByZero (fixSel "s1" "i1" 100 50 3) := by
  decide

/-- C3 (amended): when the previous selling price is 0 the decision step never
reaches the notification sink: it returns NONE when no threshold fires or the
budget is 0, and otherwise performs the division unguarded and raises
ZeroDivisionError, aborting the user-unit. -/
theorem C3_zero_prev (c : ℕ) (u : DBUser) (sel : Selection) (cur : CurrentPrice)
    (hist : List ItemsPriceLogger) (mailOk : Bool) (prev : ItemsPriceLogger)
    (hprev : get_latest_price hist sel.item_id u.pincode = some prev)
    (h0 : prev.selling_price = 0) :
    reachedMailStep (price_match c u sel cur hist mailOk) = false := by
  unfold price_match
  rw [hprev]
  dsimp only
  repeat' split
  all_goals simp_all [reachedMailStep]

/-- C3 witness: the inputs of the counterexample satisfy the hypotheses and
indeed never reach the mail step. -/
theorem C3_witness :
    reachedMailStep (price_match 5 (fixUser []) (fixSel "s1" "i1" 100 50 3)
      (mkCurrentPrice "i1" "682020" "https://example/p" (fixData 50 0 1))
      [fixHist "i1" 0 0] true) = false :=
  C3_zero_prev 5 (fixUser []) (fixSel "s1" "i1" 100 50 3)
    (mkCurrentPrice "i1" "682020" "https://example/p" (fixData 50 0 1))
    [fixHist "i1" 0 0] true (fixHist "i1" 0 0) rfl rfl

/-! Claim C4. -/

/-- User tracking one item with max_price 95, max_offer 50, budget 3. -/
def uOne : DBUser := fixUser [fixSel "s1" "i1" 95 50 3]

/-- Database with the tracked item and one history row at selling price 90. -/
def dbC4 : DBState := DBState.mk [fixItem "i1"] [fixHist "i1" 90 0] [fixSel "s1" "i1" 95 50 3]

/-- First cycle on an unchanged upstream snapshot (selling price stays 90). -/
def cyc1C4 : ProcOutcome := process_user 5 uOne (fun _ => FetchResult.ok (fixData 90 0 1)) true dbC4

/-- The user as the second cycle reloads it, with the committed selection. -/
def uC4b : DBUser := { uOne with selected_items := cyc1C4.db.user_selected_items }

/-- Second cycle on the same unchanged snapshot, over the committed state. -/
def cyc2C4 : ProcOutcome := process_user 5 uC4b (fun _ => FetchResult.ok (fixData 90 0 2)) true cyc1C4.db

/-- C4 counterexample: the upstream snapshot is unchanged across two cycles
(selling price 90, equal to the stored history), yet each cycle sends one
notification, because price_dropped compares the new price with the selection
max_price (95), not with the previous price.  The history does grow by two
rows (append-only part of the claim holds), but the notification count is 2,
not 0. -/
theorem C4_counterexample :
    cyc1C4.mails.length = 1 ∧ cyc2C4.mails.length = 1 ∧
    cyc2C4.db.history.length = 3 ∧ dbC4.history.length = 1 := by decide

/-- C4 (amended): two consecutive cycles over an identical upstream snapshot
append exactly two HistoryRecords and send zero notifications, provided the
unchanged selling price is not below the selection max_price and the
unchanged discount does not exceed max_offer; the committed selections are
untouched, so re-running with the same user is faithful. -/
theorem C4_amended (c : ℕ) (user : DBUser) (fetch : String → FetchResult)
    (mailOk : Bool) (db : DBState) (sel : Selection) (item : Items) (d : FetchData)
    (hsel : user.selected_items = [sel])
    (hitems : db.items = [item])
    (hid : item.item_id = sel.item_id) (hpin : item.pincode = user.pincode)
    (hfetch : fetch sel.item_id = FetchResult.ok d)
    (hp : ¬ d.selling_price < sel.max_price)
    (ho : ¬ d.discount_percent > sel.max_offer) :
    (process_user c user fetch mailOk db).mails = [] ∧
    (process_user c user fetch mailOk db).db.user_selected_items = db.user_selected_items ∧
    (process_user c user fetch mailOk (process_user c user fetch mailOk db).db).mails = [] ∧
    (process_user c user fetch mailOk (process_user c user fetch mailOk db).db).db.history =
      db.history ++ [histOf (mkCurrentPrice item.item_id user.pincode item.source_url d),
        histOf (mkCurrentPrice item.item_id user.pincode item.source_url d)] := by
  have h1 := process_user_no_trigger_step c user fetch mailOk db sel item d
    hsel hitems hid hpin hfetch hp ho
  have h2 := process_user_no_trigger_step c user fetch mailOk
    (process_user c user fetch mailOk db).db sel
    (updateItemFrom item (mkCurrentPrice item.item_id user.pincode item.source_url d)) d
    hsel (by rw [h1]) hid rfl hfetch hp ho
  rw [h1] at h2
  rw [h1, h2]
  simp
  rfl

/-- C4 witness: unchanged snapshot at selling price 99, above max_price 95 and
with no discount: two cycles append two history rows and send no mail. -/
theorem C4_witness :
    (process_user 5 uOne (fun _ => FetchResult.ok (fixData 99 0 1)) true dbC4).mails = [] ∧
    (process_user 5 uOne (fun _ => FetchResult.ok (fixData 99 0 1)) true dbC4).db.user_selected_items =
      dbC4.user_selected_items ∧
    (process_user 5 uOne (fun _ => FetchResult.ok (fixData 99 0 1)) true
      (process_user 5 uOne (fun _ => FetchResult.ok (fixData 99 0 1)) true dbC4).db).mails = [] ∧
    (process_user 5 uOne (fun _ => FetchResult.ok (fixData 99 0 1)) true
      (process_user 5 uOne (fun _ => FetchResult.ok (fixData 99 0 1)) true dbC4).db).db.history =
      dbC4.history ++
        [histOf (mkCurrentPrice (fixItem "i1").item_id uOne.pincode (fixItem "i1").source_url (fixData 99 0 1)),
         histOf (mkCurrentPrice (fixItem "i1").item_id uOne.pincode (fixItem "i1").source_url (fixData 99 0 1))] :=
  C4_amended 5 uOne (fun _ => FetchResult.ok (fixData 99 0 1)) true dbC4
    (fixSel "s1" "i1" 95 50 3) (fixItem "i1") (fixData 99 0 1)
    rfl rfl rfl rfl rfl (by decide) (by decide)

/-! Claim C5. -/

/-- Database for the mail-failure run: item present, one history row at 100. -/
def dbC5 : DBState := DBState.mk [fixItem "i1"] [fixHist "i1" 100 0] [fixSel "s1" "i1" 95 50 3]

/-- C5: a NOTIFY decision is reached (price drops 100 to 90, below max_price
95, budget 3) but the mail send raises.  The exception escapes price_match
and process_user uncaught: the unit ends errored, and neither the Item upsert
nor the HistoryRecord append for that selection is persisted — the claim that
sink failures are caught and do not block persistence is violated by the
code. -/
theorem C5_mail_failure_aborts :
    process_user 5 uOne (fun _ => FetchResult.ok (fixData 90 0 1)) false dbC5 =
      ProcOutcome.mk dbC5 [] true := by decide

/-! Claim C6. -/

/-- C6 counterexample: budget 1, EMAIL_SENT_COUNT 5, previous 100, new 90,
max_price 95.  The reset of worker.py line 166 runs first, so the final
budget is 5 - 1 = 4, not the 1 - 1 = 0 that a decrement by exactly 1 from
the starting budget would give. -/
theorem C6_counterexample :
    notifyBudget (price_match 5 (fixUser []) (fixSel "s1" "i1" 95 50 1)
      (mkCurrentPrice "i1" "682020" "https://example/p" (fixData 90 0 1))
      [fixHist "i1" 100 0] true) = some 4 ∧
    (fixSel "s1" "i1" 95 50 1).email_sent_count - 1 ≠ 4 := by decide

/-- C6 (amended): with previous = 100, new = 90, max_price = 95 and any
positive EMAIL_SENT_COUNT c, the decision is NOTIFY with change_percent =
round(((95 - 90) / 100) * 100) = 5 and prev_price = 95 in the payload; the
budget is first reset to c and then decremented, ending at c - 1 whatever it
was before (the decrement applies to the reset value, not the prior
budget). -/
theorem C6_amended (c : ℕ) (u : DBUser) (sel : Selection) (cur : CurrentPrice)
    (hist : List ItemsPriceLogger) (prev : ItemsPriceLogger) (hc : 0 < c)
    (hprev : get_latest_price hist sel.item_id u.pincode = some prev)
    (hp : prev.selling_price = 100) (hn : cur.selling_price = 90)
    (hm : sel.max_price = 95) :
    price_match c u sel cur hist true =
      PMOutcome.notify { sel with email_sent_count := c - 1 }
        { emails_remaining := c - 1
          user_email := u.email
          item_name := cur.name
          image_url := cur.image_url
          source_url := cur.source_url
          prev_price := 95
          curr_price := 90
          change_percent := 5 } := by
  simp only [price_match, hprev, hp, hn, hm]
  norm_num [hc.ne', pythonRound, pyInt]

/-- C6 witness: the amended statement at EMAIL_SENT_COUNT 5 and starting
budget 1: the budget ends at 4 and the payload change percent is 5. -/
theorem C6_witness :
    notifyBudget (price_match 5 (fixUser []) (fixSel "s1" "i1" 95 50 1)
      (mkCurrentPrice "i1" "682020" "https://example/p" (fixData 90 0 1))
      [fixHist "i1" 100 0] true) = some 4 ∧
    (notifyMail (price_match 5 (fixUser []) (fixSel "s1" "i1" 95 50 1)
      (mkCurrentPrice "i1" "682020" "https://example/p" (fixData 90 0 1))
      [fixHist "i1" 100 0] true)).map MailTemplate.change_percent = some 5 := by
  rw [C6_amended 5 (fixUser []) (fixSel "s1" "i1" 95 50 1)
    (mkCurrentPrice "i1" "682020" "https://example/p" (fixData 90 0 1))
    [fixHist "i1" 100 0] (fixHist "i1" 100 0) (by decide) rfl rfl rfl rfl]
  exact ⟨rfl, rfl⟩

/-! Claim C7. -/

/-- C7 counterexample: previous snapshot selling price 100, new price 90,
max_price 95.  The notification payload field prev_price is 95 — the int of
the selection max_price (worker.py 184) — and not the previous snapshot
selling price 100, refuting the claim. -/
theorem C7_counterexample :
    (notifyMail (price_match 5 (fixUser []) (fixSel "s1" "i1" 95 50 3)
        (mkCurrentPrice "i1" "682020" "https://example/p" (fixData 90 0 1))
        [fixHist "i1" 100 0] true)).map (fun m => (m.prev_price : ℚ)) = some 95 ∧
    (fixHist "i1" 100 0).selling_price = 100 ∧ ((95 : ℚ) ≠ 100) := by decide

/-- C7 (amended): in every NOTIFY outcome the payload prev_price equals
int(selection.max_price) — the user threshold, not the previous snapshot
price — and curr_price equals the newly fetched selling price. -/
theorem C7_payload (c : ℕ) (u : DBUser) (sel : Selection) (cur : CurrentPrice)
    (hist : List ItemsPriceLogger) (mailOk : Bool)
    (h : isNotify (price_match c u sel cur hist mailOk) = true) :
    (notifyMail (price_match c u sel cur hist mailOk)).map MailTemplate.prev_price =
      some (pyInt sel.max_price) ∧
    (notifyMail (price_match c u sel cur hist mailOk)).map MailTemplate.curr_price =
      some cur.selling_price := by
  rcases ho : price_match c u sel cur hist mailOk with s | ⟨s, m⟩ | s | s <;> rw [ho] at h
  · exact Bool.noConfusion h
  · have hf := price_match_mail_fields c u sel cur hist mailOk s m ho
    simp [notifyMail, hf.1, hf.2]
  · exact Bool.noConfusion h
  · exact Bool.noConfusion h

/-- A selection and snapshot on which the improved offer triggers NOTIFY. -/
def selC7 : Selection := fixSel "s1" "i1" 95 50 3

/-- Snapshot at selling price 96 with discount 60 beating max_offer 50. -/
def curC7 : CurrentPrice := mkCurrentPrice "i1" "682020" "https://example/p" (fixData 96 60 1)

/-- C7 witness: a NOTIFY produced by the offer threshold carries prev_price =
int(95) and curr_price = 96. -/
theorem C7_witness :
    (notifyMail (price_match 5 (fixUser []) selC7 curC7 [fixHist "i1" 100 0] true)).map
      MailTemplate.prev_price = some (pyInt selC7.max_price) ∧
    (notifyMail (price_match 5 (fixUser []) selC7 curC7 [fixHist "i1" 100 0] true)).map
      MailTemplate.curr_price = some curC7.selling_price :=
  C7_payload 5 (fixUser []) selC7 curC7 [fixHist "i1" 100 0] true (by decide)

/-! Claim C8. -/

/-- C8: a selection with no prior HistoryRecord for (item_id, region): the
first successful fetch never notifies, leaves the budget and every other
selection row unchanged, creates exactly one HistoryRecord and upserts the
Item from the snapshot, committing both. -/
theorem C8_first_observation (c : ℕ) (user : DBUser) (fetch : String → FetchResult)
    (mailOk : Bool) (db : DBState) (sel : Selection) (item : Items) (d : FetchData)
    (hsel : user.selected_items = [sel])
    (hfind : db.items.find? (fun x => x.item_id == sel.item_id && x.pincode == user.pincode) = some item)
    (hhist : get_latest_price db.history sel.item_id user.pincode = none)
    (hfetch : fetch sel.item_id = FetchResult.ok d) :
    process_user c user fetch mailOk db =
      ProcOutcome.mk
        (DBState.mk
          (upsertItem db.items (updateItemFrom item (mkCurrentPrice item.item_id user.pincode item.source_url d)))
          (db.history ++ [histOf (mkCurrentPrice item.item_id user.pincode item.source_url d)])
          db.user_selected_items)
        [] false := by
  have hpm := price_match_first_run c user sel
    (mkCurrentPrice item.item_id user.pincode item.source_url d) db.history mailOk hhist
  simp only [process_user, hsel, process_user_go, visibleItems_empty, hfind, hfetch, hpm,
    commit, List.nil_append, List.foldl]

/-- Database for the first-observation run: item present, empty history. -/
def dbC8 : DBState := DBState.mk [fixItem "i1"] [] [fixSel "s1" "i1" 95 50 3]

/-- C8 witness: a first observation at selling price 90 (below max_price)
still sends nothing, appends one history row and updates the item. -/
theorem C8_witness :
    process_user 5 uOne (fun _ => FetchResult.ok (fixData 90 0 1)) true dbC8 =
      ProcOutcome.mk
        (DBState.mk
          (upsertItem dbC8.items (updateItemFrom (fixItem "i1")
            (mkCurrentPrice (fixItem "i1").item_id uOne.pincode (fixItem "i1").source_url (fixData 90 0 1))))
          (dbC8.history ++ [histOf
            (mkCurrentPrice (fixItem "i1").item_id uOne.pincode (fixItem "i1").source_url (fixData 90 0 1))])
          dbC8.user_selected_items)
        [] false :=
  C8_first_observation 5 uOne (fun _ => FetchResult.ok (fixData 90 0 1)) true dbC8
    (fixSel "s1" "i1" 95 50 3) (fixItem "i1") (fixData 90 0 1) rfl (by decide) rfl rfl

/-! Claim C9. -/

/-- C9: whenever the new selling price is strictly below both the previous
selling price and the selection max_price, the decision step resets the
budget to EMAIL_SENT_COUNT (here the parameter c) before deciding, then
notifies and decrements: the outcome is NOTIFY with budget c - 1 regardless
of the starting budget — in particular a selection at budget 0 resumes
notifying on a further price drop, so the budget is not monotone. -/
theorem C9_reset (c : ℕ) (u : DBUser) (sel : Selection) (cur : CurrentPrice)
    (hist : List ItemsPriceLogger) (prev : ItemsPriceLogger)
    (hc : 0 < c)
    (hprev : get_latest_price hist sel.item_id u.pincode = some prev)
    (hcur : 0 ≤ cur.selling_price)
    (hdrop : cur.selling_price < prev.selling_price)
    (hbelow : cur.selling_price < sel.max_price) :
    notifyBudget (price_match c u sel cur hist true) = some (c - 1) := by
  have hpos : (0 : ℚ) < prev.selling_price := lt_of_le_of_lt hcur hdrop
  simp [price_match, hprev, hdrop, hbelow, hc.ne', hpos.ne', notifyBudget]

/-- C9 witness: budget 0, latest history row at 85, new price 80 below both
85 and max_price 95; with EMAIL_SENT_COUNT 5 the outcome is NOTIFY and the
budget becomes 4. -/
theorem C9_witness :
    notifyBudget (price_match 5 (fixUser []) (fixSel "s1" "i1" 95 50 0)
      (mkCurrentPrice "i1" "682020" "https://example/p" (fixData 80 0 2))
      [fixHist "i1" 90 0, fixHist "i1" 85 1] true) = some 4 :=
  C9_reset 5 (fixUser []) (fixSel "s1" "i1" 95 50 0)
    (mkCurrentPrice "i1" "682020" "https://example/p" (fixData 80 0 2))
    [fixHist "i1" 90 0, fixHist "i1" 85 1] (fixHist "i1" 85 1)
    (by decide) (by decide) (by decide) (by decide) (by decide)

/-! Claim C10. -/

/-- C10: a selection whose Items row under (item_id, user pincode) is missing
is skipped entirely: the unit continues with the remaining selections exactly
as if the selection were absent, for every fetch oracle (so no fetch for it
can matter), and when it was the only selection the unit ends with the
database unchanged, no mail and no error — no history row, no notification,
no budget change. -/
theorem C10_skip (c : ℕ) (user : DBUser) (fetch : String → FetchResult) (mailOk : Bool)
    (db : DBState) (sel : Selection) (rest : List Selection)
    (hsel : user.selected_items = sel :: rest)
    (hfind : db.items.find? (fun x => x.item_id == sel.item_id && x.pincode == user.pincode) = none) :
    process_user c user fetch mailOk db =
      process_user_go c user fetch mailOk rest db {} [] ∧
    (rest = [] → process_user c user fetch mailOk db = ProcOutcome.mk db [] false) := by
  have h1 : process_user c user fetch mailOk db =
      process_user_go c user fetch mailOk rest db {} [] := by
    simp only [process_user, hsel, process_user_go, visibleItems_empty, hfind]
  refine ⟨h1, fun hr => ?_⟩
  subst hr
  rw [h1]
  simp only [process_user_go, commit_empty]

/-- Database with no Items rows at all for the tracked item. -/
def dbC10 : DBState := DBState.mk [] [] [fixSel "s1" "i1" 95 50 3]

/-- C10 witness: with no Items row the unit leaves the database untouched even
when the fetch oracle would raise on every call. -/
theorem C10_witness :
    process_user 5 uOne (fun _ => FetchResult.exn) true dbC10 = ProcOutcome.mk dbC10 [] false :=
  (C10_skip 5 uOne (fun _ => FetchResult.exn) true dbC10 (fixSel "s1" "i1" 95 50 3) []
    rfl rfl).2 rfl

end Jugaad
